import Mathlib

/-!
Verification of the AI-Powered Interview Assessment System.

This file gives a shallow embedding, in Lean 4, of the scoring core of the
repository: the score-fusion step of `assess_interview` and the tolerant
response parsing in `modules/gemini_scorer.py`, the per-video gaze
aggregation of `analyze_video` in `modules/eye_tracking.py`, the batch
decision and percentage computations of `app.py`, and the per-question
pipeline `process_single_interview` of `app.py` with its collaborators
(retrieval, transcription, gaze analysis, judgment engine) modelled as
oracle values that either return a result or raise.

Python `float` arithmetic is modelled over `ℚ`; Python's `round` (banker's
rounding, round-half-to-even) is modelled by `pyRound` below.
-/

/-- Python's built-in `round` on a rational: round half to even. -/
def pyRound (q : ℚ) : ℤ :=
  let n : ℤ := ⌊q⌋
  let f : ℚ := q - n
  if f < 1/2 then n
  else if 1/2 < f then n + 1
  else if n % 2 = 0 then n else n + 1

/-- Python's `round(x, 2)`: round half to even at two decimal places. -/
def round2 (q : ℚ) : ℚ := (pyRound (q * 100) : ℚ) / 100

/-- Python's `round(x, 1)`: round half to even at one decimal place. -/
def round1 (q : ℚ) : ℚ := (pyRound (q * 10) : ℚ) / 10

/-- `max(0, min(4, n))`, the clamp used on scores in `assess_interview`
(`gemini_scorer.py` line 296 and line 311). -/
def clampScore (n : ℤ) : ℤ := max 0 (min 4 n)

/-! ## Score fusion (`modules/gemini_scorer.py`, `assess_interview`)

`fusedBase` is the weighted computation of lines 309–311: the raw rubric
score has already been clamped to `[0,4]` (line 296); the three sub-scores
default to the clamped raw score when absent (lines 304–306), a case the
caller resolves before this function. -/

/-- Lines 309–311 of `gemini_scorer.py`:
`verbal_score = (star_score + toulmin_score) / 2`,
`weighted_score = 0.75*verbal_score + 0.15*score + 0.10*fluency_score`,
`final_score = max(0, min(4, round(weighted_score)))`. -/
def fusedBase (score : ℤ) (star toulmin fluency : ℚ) : ℤ :=
  let verbal : ℚ := (star + toulmin) / 2
  let weighted : ℚ := (75/100) * verbal + (15/100) * (score : ℚ) + (10/100) * fluency
  clampScore (pyRound weighted)

/-- The same weighted value before rounding (stored as `weighted_score`). -/
def fusedWeighted (score : ℤ) (star toulmin fluency : ℚ) : ℚ :=
  (75/100) * ((star + toulmin) / 2) + (15/100) * (score : ℚ) + (10/100) * fluency

/-- The fused-score formula exactly as the specification states it:
`clamp(round(0.75·((s1+s2)/2) + 0.15·r + 0.10·s3), 0, 4)`. -/
def specFusedScore (r : ℤ) (s1 s2 s3 : ℚ) : ℤ :=
  max 0 (min 4 (pyRound ((75/100) * ((s1 + s2) / 2) + (15/100) * (r : ℚ) + (10/100) * s3)))

/-- Lines 314–317 of `gemini_scorer.py`: if the gaze-integrity flag is
`"suspicious"`, subtract 2 from the final score, floor at 0, and append the
integrity-warning annotation to the notes; otherwise leave both unchanged. -/
def applyIntegrity (finalScore : ℤ) (flag : String) (notes : String) : ℤ × String :=
  if flag = "suspicious" then
    (max 0 (finalScore - 2), notes ++ " [INTEGRITY WARNING: Suspicious behavior detected]")
  else
    (finalScore, notes)

/-! ## Judgment response model

The judgment engine returns free text; `parse_gemini_response` turns it into
a Python dict. We model that dict by the fields the repository's own code
reads or writes (`assess_interview` lines 295–323, the default dict of
`parse_gemini_response` lines 245–250). A `none` field models a key that is
absent (or whose enclosing sub-dict is absent). The standard-library JSON
decoder `json.loads` is an external collaborator; it is modelled as an
oracle `jsonLoads : String → Option Assessment` passed in. -/

structure Assessment where
  score : Option ℤ := none
  reason : Option String := none
  reasoning : Option String := none
  notes : Option String := none
  star_score : Option ℚ := none
  argumentation_score : Option ℚ := none
  fluency_score : Option ℚ := none
  integrity_flag : Option String := none
  confidence_level : Option String := none
  weighted_score : Option ℚ := none
  final_score : Option ℤ := none
  errorText : Option String := none
deriving DecidableEq, Repr

/-! ## String scanning (`parse_gemini_response`, lines 229–241)

The three regex patterns `r'```json\s*(.*?)\s*```'`, `r'```\s*(.*?)\s*```'`
and `r'\{[\s\S]*\}'` are searched with `re.search(..., re.DOTALL)`.
Leftmost-match semantics with a greedy leading `\s*` and a lazy `(.*?)`
reduce, for the fenced patterns, to: take the text after the first
occurrence of the opening fence, cut it at the first subsequent "```"
occurrence, and strip surrounding whitespace (the captured group 1).
The greedy brace pattern matches from the first `{` to the last `}`. -/

/-- Characters matched by the regex class `\s` (ASCII). -/
def isWsChar (c : Char) : Bool :=
  c = ' ' || c = '\t' || c = '\n' || c = '\r' || c = '\x0b' || c = '\x0c'

/-- Split a character list at the first occurrence of `pat`, returning the
text before the occurrence and the text after it, or `none` when `pat` does
not occur. -/
def splitOnFirst (pat : List Char) (cs : List Char) : Option (List Char × List Char) :=
  if pat.isPrefixOf cs then some ([], cs.drop pat.length)
  else
    match cs with
    | [] => none
    | c :: rest => (splitOnFirst pat rest).map (fun p => (c :: p.1, p.2))

/-- Strip leading and trailing regex-`\s` whitespace. -/
def trimWs (cs : List Char) : List Char :=
  ((cs.dropWhile isWsChar).reverse.dropWhile isWsChar).reverse

/-- The prefix of `cs` up to and including the last occurrence of `c`,
or `none` when `c` does not occur. -/
def takeUntilLast (c : Char) (cs : List Char) : Option (List Char) :=
  match cs with
  | [] => none
  | x :: rest =>
    match takeUntilLast c rest with
    | some t => some (x :: t)
    | none => if x = c then some [x] else none

/-- Group 1 of `re.search(r'```json\s*(.*?)\s*```', text, re.DOTALL)`. -/
def extractJsonFence (s : String) : Option String :=
  match splitOnFirst ("```json".toList) s.toList with
  | none => none
  | some (_, rest) =>
    match splitOnFirst ("```".toList) rest with
    | none => none
    | some (mid, _) => some (String.mk (trimWs mid))

/-- Group 1 of `re.search(r'```\s*(.*?)\s*```', text, re.DOTALL)`. -/
def extractFence (s : String) : Option String :=
  match splitOnFirst ("```".toList) s.toList with
  | none => none
  | some (_, rest) =>
    match splitOnFirst ("```".toList) rest with
    | none => none
    | some (mid, _) => some (String.mk (trimWs mid))

/-- Group 0 of `re.search(r'\{[\s\S]*\}', text)`: from the first `{` to the
last `}`, braces included. -/
def extractBrace (s : String) : Option String :=
  match splitOnFirst ['\x7b'] s.toList with
  | none => none
  | some (_, rest) =>
    match takeUntilLast '\x7d' rest with
    | none => none
    | some t => some (String.mk ('\x7b' :: t))

/-- The default dict returned at lines 245–250 of `gemini_scorer.py` when
every parse strategy fails. -/
def defaultAssessment (responseText : String) : Assessment :=
  { score := some 2
    confidence_level := some "LOW"
    reasoning := some ("Could not parse response: " ++ responseText.take 200 ++ "...")
    errorText := some "Response parsing failed" }

/-- `parse_gemini_response` (`gemini_scorer.py` lines 211–250): try
`json.loads` on the whole text, then on the first ```json fenced block,
then on the first plain fenced block, then on the first-to-last brace span;
when every attempt fails, return the synthesized default dict. -/
def parse_gemini_response (jsonLoads : String → Option Assessment)
    (responseText : String) : Assessment :=
  match jsonLoads responseText with
  | some d => d
  | none =>
    match (extractJsonFence responseText).bind jsonLoads with
    | some d => d
    | none =>
      match (extractFence responseText).bind jsonLoads with
      | some d => d
      | none =>
        match (extractBrace responseText).bind jsonLoads with
        | some d => d
        | none => defaultAssessment responseText

/-! ## `assess_interview` (`gemini_scorer.py` lines 253–329)

The Gemini client and the `generate_content` call are external
collaborators; each is modelled as an `Except String` value (`.error e`
models the call raising an exception whose text is `e`). Note that
`get_gemini_client()` is called at line 273, before the `try` block that
starts at line 278: an exception from client setup is not caught here.
The question, transcript, gaze metrics and position id only influence the
prompt sent to the engine, which the `generate` oracle already abstracts. -/

structure GeminiOracle where
  clientSetup : Except String Unit
  generate : Except String String
deriving Repr

/-- The dict `{"error": error_msg, "score": 2}` returned with the neutral
default when the engine call raises (line 329). -/
def geminiErrorAssessment (errorMsg : String) : Assessment :=
  { errorText := some errorMsg, score := some 2 }

/-- `assess_interview`: returns `.error e` when the function itself raises
(client setup, line 273), and `.ok (final_score, reason, assessment)`
otherwise. -/
def assess_interview (g : GeminiOracle) (jsonLoads : String → Option Assessment) :
    Except String (ℤ × String × Assessment) :=
  match g.clientSetup with
  | .error e => .error e
  | .ok _ =>
    match g.generate with
    | .error e =>
      let errorMsg := "Gemini API error: " ++ e
      .ok (2, errorMsg, geminiErrorAssessment errorMsg)
    | .ok responseText =>
      let assessment := parse_gemini_response jsonLoads responseText
      let score := clampScore (assessment.score.getD 2)
      let reason := assessment.reason.getD (assessment.reasoning.getD "Assessment completed")
      let notes := assessment.notes.getD ""
      let star_score := assessment.star_score.getD (score : ℚ)
      let toulmin_score := assessment.argumentation_score.getD (score : ℚ)
      let fluency_score := assessment.fluency_score.getD (score : ℚ)
      let final_score := fusedBase score star_score toulmin_score fluency_score
      let integrity_flag := assessment.integrity_flag.getD "clean"
      let penalized := applyIntegrity final_score integrity_flag notes
      let assessment' := { assessment with
        notes := some penalized.2
        reason := some reason
        weighted_score := some (round2 (fusedWeighted score star_score toulmin_score fluency_score))
        final_score := some penalized.1 }
      .ok (penalized.1, reason, assessment')

/-! ## Gaze aggregation (`modules/eye_tracking.py`, `analyze_video`)

Lines 302–337 aggregate the collected per-frame gaze values (each the
`avg_gaze` appended at line 279; the parallel `eye_contact_scores` entry is
`1 - |avg_gaze - 0.5| * 2` by line 193 of `analyze_frame`). The per-frame
values are modelled as a list of rationals. `np.std` is the nonnegative
square root of the population variance, which is irrational in general; it
is passed as an explicit argument `std`, constrained in the theorems by
`0 ≤ std` and `std ^ 2 = popVariance gaze`. -/

/-- Line 193 of `eye_tracking.py`: `eye_contact_score = 1.0 - abs(avg_gaze - 0.5) * 2`. -/
def eyeContactScore (g : ℚ) : ℚ := 1 - |g - 1/2| * 2

/-- The arithmetic mean of a list of rationals (`np.mean`). -/
def listMean (l : List ℚ) : ℚ := l.sum / l.length

/-- Population variance (`np.std(...) ** 2`). -/
def popVariance (l : List ℚ) : ℚ := listMean (l.map (fun g => (g - listMean l) ^ 2))

/-- Line 304: frames whose gaze lies strictly within 0.3 of center. -/
def eyeContactFrames (gaze : List ℚ) : ℕ :=
  (gaze.filter (fun g => |g - 1/2| < 3/10)).length

/-- Line 315: frames whose gaze lies at distance at least 0.3 from center. -/
def lookingAwayFrames (gaze : List ℚ) : ℕ :=
  (gaze.filter (fun g => 3/10 ≤ |g - 1/2|)).length

/-- Line 305: `eye_contact_percentage = (eye_contact_frames / len(gaze_values)) * 100`. -/
def eyeContactPercentage (gaze : List ℚ) : ℚ :=
  ((eyeContactFrames gaze : ℚ) / (gaze.length : ℚ)) * 100

/-- Line 316: `looking_away_percentage = (looking_away_frames / len(gaze_values)) * 100`. -/
def lookingAwayPercentage (gaze : List ℚ) : ℚ :=
  ((lookingAwayFrames gaze : ℚ) / (gaze.length : ℚ)) * 100

/-- Line 309: `gaze_stability = max(0, 1 - gaze_std * 2) * 100`. -/
def gazeStability (std : ℚ) : ℚ := max 0 (1 - std * 2) * 100

/-- Line 312: `avg_eye_contact = np.mean(eye_contact_scores) * 100`. -/
def avgEyeContact (gaze : List ℚ) : ℚ := listMean (gaze.map eyeContactScore) * 100

/-- Lines 319–323: `attention_score = avg_eye_contact * 0.4 +
gaze_stability * 0.3 + (100 - looking_away_percentage) * 0.3`. -/
def attentionScoreRaw (gaze : List ℚ) (std : ℚ) : ℚ :=
  avgEyeContact gaze * (4/10) + gazeStability std * (3/10)
    + (100 - lookingAwayPercentage gaze) * (3/10)

/-- The summary fields of the dict returned at lines 325–337 that the
claims are about (each rounded to two decimals as in the source). -/
structure GazeSummary where
  eye_contact_percentage : ℚ
  gaze_stability : ℚ
  attention_score : ℚ
  looking_away_percentage : ℚ
deriving DecidableEq, Repr

/-- The aggregation step of `analyze_video` on a non-empty gaze list
(lines 302–337), with `std` standing for `np.std(gaze_values)`. -/
def analyzeVideoSummary (gaze : List ℚ) (std : ℚ) : GazeSummary :=
  { eye_contact_percentage := round2 (eyeContactPercentage gaze)
    gaze_stability := round2 (gazeStability std)
    attention_score := round2 (attentionScoreRaw gaze std)
    looking_away_percentage := round2 (lookingAwayPercentage gaze) }

/-! ## Batch aggregation (`app.py`)

`process_api_request` lines 392–405: the mean of the collected per-question
scores, the percentage score, and the decision label. (The UI variant
`process_interview_ui` lines 188–193 and 284–295 computes the same mean,
percentage and thresholds, with display labels `"✅ PASSED"`,
`"⚠️ REVIEW"`, `"❌ FAILED"` in place of the API labels.) -/

/-- Line 392: `avg_score = sum(scores) / len(scores) if scores else 0`. -/
def batchMean (scores : List ℤ) : ℚ :=
  if scores = [] then 0 else ((scores.sum : ℚ) / (scores.length : ℚ))

/-- Lines 395–397: `interview_score_pct = round((total_score / max_possible)
* 100, 1) if max_possible > 0 else 0` with `max_possible = len(scores) * 4`. -/
def interviewScorePct (scores : List ℤ) : ℚ :=
  if scores.length * 4 > 0 then
    round1 (((scores.sum : ℚ) / ((scores.length * 4 : ℕ) : ℚ)) * 100)
  else 0

/-- Lines 400–405: the decision label from the mean score. -/
def decisionLabel (avg : ℚ) : String :=
  if avg ≥ 3 then "PASSED"
  else if avg ≥ 2 then "Need Human"
  else "FAILED"

/-- The decision computed by `process_api_request` from the per-question
scores. -/
def batchDecision (scores : List ℤ) : String := decisionLabel (batchMean scores)

/-- The percentage formula exactly as the specification states it:
`round(100 · sum(scores) / (4 · count), 1)`. -/
def specPercentage (scores : List ℤ) : ℚ :=
  round1 ((100 * (scores.sum : ℚ)) / (4 * (scores.length : ℚ)))

/-! ## Per-question pipeline (`app.py`, `process_single_interview`)

Lines 33–124. The four stage collaborators and the optional progress
callback are modelled as oracle values; `.error e` models the call raising
an exception with text `e`. The progress callback is invoked at four
points (before each stage, lines 55–56, 69–70, 79–80, 88–89), outside any
inner `try`, so a raising callback reaches the top-level handler. The
transcription and gaze stages recover internally (lines 72–76, 82–85):
their failures never propagate, and their values only feed the judgment
prompt, which the Gemini oracle abstracts. The judgment stage runs the
embedded `assess_interview`, whose own collaborators are the Gemini
oracle and the JSON decoder. The `finally` block (lines 121–124) invokes
`cleanup_video(video_path)` exactly when `video_path` is truthy, i.e.
assigned and non-empty; the second component of the result counts these
invocations. -/

structure PipelineCollab where
  progress : Option (Fin 4 → Except String Unit)
  download : Except String (String × Bool)
  transcribe : Except String String
  eyeTrack : Except String String
  gemini : GeminiOracle
  jsonLoads : String → Option Assessment

/-- The `i`-th `progress_callback(...)` call site: `none` when the callback
is absent or returns, `some e` when it raises. -/
def progressCall (c : PipelineCollab) (i : Fin 4) : Option String :=
  match c.progress with
  | none => none
  | some f => match f i with | .ok _ => none | .error e => some e

/-- The value bound to `video_path` by the retrieval stage; `""` when
`download_video` raised before assigning it (Python `None` and `""` are
both falsy in the `finally` guard, so they are identified). -/
def downloadedPath (c : PipelineCollab) : String :=
  match c.download with
  | .ok p => p.1
  | .error _ => ""

/-- The projection of the per-question result dict that the claims are
about. The Python dict additionally carries the transcript, the
transcription metadata, the eye metrics and the full assessment. -/
structure InterviewResult where
  id : ℤ
  score : ℤ
  reasoning : Option String
  errorText : Option String
deriving Repr

/-- The zero-score record built by the top-level handler (lines 113–119),
and by the retrieval-failure return (lines 60–66) with its fixed message. -/
def errorResult (pid : ℤ) (e : String) : InterviewResult :=
  { id := pid, score := 0, reasoning := none, errorText := some e }

/-- `process_single_interview`: returns the result record together with
the number of `cleanup_video` invocations performed by the `finally`
block. -/
def process_single_interview (pid : ℤ) (c : PipelineCollab) : InterviewResult × ℕ :=
  match progressCall c 0 with
  | some e => (errorResult pid e, 0)
  | none =>
    match c.download with
    | .error e => (errorResult pid e, 0)
    | .ok (path, success) =>
      let cleanups := if path = "" then 0 else 1
      if success = false then
        (errorResult pid "Failed to download video from Google Drive", cleanups)
      else
        match progressCall c 1 with
        | some e => (errorResult pid e, cleanups)
        | none =>
          let _transcript : String :=
            match c.transcribe with
            | .ok t => t
            | .error _ => ""
          match progressCall c 2 with
          | some e => (errorResult pid e, cleanups)
          | none =>
            match progressCall c 3 with
            | some e => (errorResult pid e, cleanups)
            | none =>
              match assess_interview c.gemini c.jsonLoads with
              | .ok r =>
                ({ id := pid, score := r.1, reasoning := some r.2.1, errorText := none },
                  cleanups)
              | .error e =>
                ({ id := pid, score := 2, reasoning := some ("Assessment error: " ++ e),
                   errorText := none }, cleanups)

/-! ## Theorems -/

/-- C1: for every rubric judgment with raw score `r` and sub-scores
`s1` (narrative/STAR), `s2` (argumentation), `s3` (fluency), all in
`[0,4]`, the fused score before the integrity penalty computed by
`assess_interview` equals `clamp(round(0.75*((s1+s2)/2) + 0.15*r +
0.10*s3), 0, 4)`; in particular `r=4,s1=4,s2=4,s3=4` gives 4, all zeros
gives 0, and `r=2,s1=4,s2=4,s3=0` gives 3. -/
theorem c1_fused_score_formula (r : ℤ) (s1 s2 s3 : ℚ)
    (hr0 : 0 ≤ r) (hr4 : r ≤ 4)
    (hs1 : 0 ≤ s1 ∧ s1 ≤ 4) (hs2 : 0 ≤ s2 ∧ s2 ≤ 4) (hs3 : 0 ≤ s3 ∧ s3 ≤ 4) :
    fusedBase (clampScore r) s1 s2 s3 = specFusedScore r s1 s2 s3 ∧
    fusedBase (clampScore 4) 4 4 4 = 4 ∧
    fusedBase (clampScore 0) 0 0 0 = 0 ∧
    fusedBase (clampScore 2) 4 4 0 = 3 := by
  refine ⟨?_, ?_, ?_, ?_⟩
  · have hc : clampScore r = r := by unfold clampScore; omega
    rw [hc]; rfl
  · norm_num [fusedBase, clampScore, pyRound]
  · norm_num [fusedBase, clampScore, pyRound]
  · norm_num [fusedBase, clampScore, pyRound]

/-- Witness for `c1_fused_score_formula` at `r = 2`, `s1 = 4`, `s2 = 4`,
`s3 = 0`. -/
theorem c1_fused_score_formula_witness :
    ((0:ℤ) ≤ 2 ∧ (2:ℤ) ≤ 4) ∧
    fusedBase (clampScore 2) 4 4 0 = specFusedScore 2 4 4 0 := by
  refine ⟨⟨by norm_num, by norm_num⟩, ?_⟩
  exact (c1_fused_score_formula 2 4 4 0 (by norm_num) (by norm_num)
    ⟨by norm_num, by norm_num⟩ ⟨by norm_num, by norm_num⟩ ⟨by norm_num, by norm_num⟩).1

/-- C4: for every rubric judgment whose gaze-integrity flag is
`"suspicious"`, `assess_interview` subtracts exactly 2 from the base fused
score, floors the result at 0, and appends the integrity-warning
annotation to the notes text; any other flag leaves score and notes
unchanged. In particular base 1 yields 0 and base 4 yields 2. -/
theorem c4_integrity_penalty (base : ℤ) (notes flag : String)
    (hflag : flag ≠ "suspicious") :
    applyIntegrity base "suspicious" notes =
      (max 0 (base - 2), notes ++ " [INTEGRITY WARNING: Suspicious behavior detected]") ∧
    applyIntegrity base flag notes = (base, notes) ∧
    (applyIntegrity 1 "suspicious" notes).1 = 0 ∧
    (applyIntegrity 4 "suspicious" notes).1 = 2 := by
  refine ⟨by simp [applyIntegrity], by rw [applyIntegrity, if_neg hflag], ?_, ?_⟩
  · simp [applyIntegrity]
  · simp [applyIntegrity]

/-- Witness for `c4_integrity_penalty` at base 1 with flag `"clean"`. -/
theorem c4_integrity_penalty_witness :
    ("clean" ≠ "suspicious") ∧ (applyIntegrity 1 "suspicious" "n").1 = 0 := by
  refine ⟨by decide, ?_⟩
  exact (c4_integrity_penalty 1 "n" "clean" (by decide)).2.2.1

/-- C3 counterexample: the batch decision label for scores `[2, 3]`
(mean `5/2`) is `"Need Human"`, which is not `"NEEDS_REVIEW"` and does
not belong to the set `{PASSED, NEEDS_REVIEW, FAILED}` the claim
asserts. -/
theorem c3_counterexample :
    batchDecision [2, 3] = "Need Human" ∧
    batchDecision [2, 3] ∉ (["PASSED", "NEEDS_REVIEW", "FAILED"] : List String) := by
  have h : batchDecision [2, 3] = "Need Human" := by
    rw [batchDecision, batchMean, if_neg (by simp)]
    norm_num [decisionLabel]
  exact ⟨h, by rw [h]; decide⟩

/-- C3 amended: for every non-empty list of per-question final scores,
`process_api_request` labels the batch `"PASSED"` when the arithmetic mean
is at least 3, `"Need Human"` when the mean is at least 2 and below 3, and
`"FAILED"` when the mean is below 2; the label always belongs to the set
`{PASSED, Need Human, FAILED}`. (The mid label is `"Need Human"`, not
`"NEEDS_REVIEW"`; the UI variant displays `"⚠️ REVIEW"`.) -/
theorem c3_decision_thresholds (scores : List ℤ) (hne : scores ≠ []) :
    (3 ≤ batchMean scores → batchDecision scores = "PASSED") ∧
    (2 ≤ batchMean scores → batchMean scores < 3 → batchDecision scores = "Need Human") ∧
    (batchMean scores < 2 → batchDecision scores = "FAILED") ∧
    batchDecision scores ∈ (["PASSED", "Need Human", "FAILED"] : List String) := by
  unfold batchDecision decisionLabel
  refine ⟨fun h1 => ?_, fun h2 h3 => ?_, fun h4 => ?_, ?_⟩
  · rw [if_pos (by exact_mod_cast h1)]
  · rw [if_neg (by exact_mod_cast not_le.mpr h3), if_pos (by exact_mod_cast h2)]
  · rw [if_neg (by push_cast; linarith), if_neg (by push_cast; linarith)]
  · split_ifs <;> simp

/-- Witness for `c3_decision_thresholds` at scores `[2, 3]`. -/
theorem c3_decision_thresholds_witness :
    (([2, 3] : List ℤ) ≠ []) ∧ (2 ≤ batchMean [2, 3] ∧ batchMean [2, 3] < 3) ∧
    batchDecision [2, 3] = "Need Human" := by
  have hm : batchMean [2, 3] = 5/2 := by
    rw [batchMean, if_neg (by simp)]; norm_num
  refine ⟨by simp, ⟨by rw [hm]; norm_num, by rw [hm]; norm_num⟩, ?_⟩
  exact (c3_decision_thresholds [2, 3] (by simp)).2.1
    (by rw [hm]; norm_num) (by rw [hm]; norm_num)

/-- C8: for every non-empty list of per-question final scores, the batch
percentage equals `round(100 * sum(scores) / (4 * count), 1)`; in
particular `[4,4,4,4]` gives `100.0`, `[1,1]` gives `25.0`, and `[2,3]`
gives `62.5`. -/
theorem c8_percentage_formula (scores : List ℤ) (hne : scores ≠ []) :
    interviewScorePct scores = specPercentage scores ∧
    interviewScorePct [4, 4, 4, 4] = 100 ∧
    interviewScorePct [1, 1] = 25 ∧
    interviewScorePct [2, 3] = 125/2 := by
  refine ⟨?_, ?_, ?_, ?_⟩
  · have hlen : scores.length ≠ 0 := by
      intro h; exact hne (List.length_eq_zero.mp h)
    have hq : (scores.length : ℚ) ≠ 0 := by exact_mod_cast hlen
    rw [interviewScorePct, if_pos (by omega), specPercentage]
    congr 1
    push_cast
    field_simp
    ring
  · norm_num [interviewScorePct, round1, pyRound]
  · norm_num [interviewScorePct, round1, pyRound]
  · norm_num [interviewScorePct, round1, pyRound]

/-- Witness for `c8_percentage_formula` at scores `[2, 3]`. -/
theorem c8_percentage_formula_witness :
    (([2, 3] : List ℤ) ≠ []) ∧ interviewScorePct [2, 3] = specPercentage [2, 3] := by
  exact ⟨by simp, (c8_percentage_formula [2, 3] (by simp)).1⟩

/-- The two threshold filters of `analyze_video` partition the gaze list. -/
theorem eyeContact_lookingAway_count (gaze : List ℚ) :
    eyeContactFrames gaze + lookingAwayFrames gaze = gaze.length := by
  unfold eyeContactFrames lookingAwayFrames
  induction gaze with
  | nil => rfl
  | cons x xs ih =>
    rcases lt_or_le |x - (1:ℚ)/2| (3/10) with h | h
    · rw [List.filter_cons, List.filter_cons, if_pos (by simpa using h),
        if_neg (by simpa using not_le.mpr h)]
      simp only [List.length_cons]
      omega
    · rw [List.filter_cons, List.filter_cons, if_neg (by simpa using not_lt.mpr h),
        if_pos (by simpa using h)]
      simp only [List.length_cons]
      omega

/-- C9: for every non-empty sequence of per-frame gaze values, the
looking-away percentage (frames at distance at least 0.3 from center) and
the eye-contact percentage (frames at distance strictly less than 0.3)
computed by `analyze_video` sum, before rounding, to exactly 100: the two
threshold tests partition the frame set. -/
theorem c9_threshold_partition (gaze : List ℚ) (hne : gaze ≠ []) :
    eyeContactFrames gaze + lookingAwayFrames gaze = gaze.length ∧
    eyeContactPercentage gaze + lookingAwayPercentage gaze = 100 := by
  have hcount := eyeContact_lookingAway_count gaze
  refine ⟨hcount, ?_⟩
  have hlen : (gaze.length : ℚ) ≠ 0 := by
    have h0 : gaze.length ≠ 0 := fun h => hne (List.length_eq_zero.mp h)
    exact_mod_cast h0
  unfold eyeContactPercentage lookingAwayPercentage
  have hsum : ((eyeContactFrames gaze : ℚ) + (lookingAwayFrames gaze : ℚ))
      = (gaze.length : ℚ) := by
    exact_mod_cast congrArg (Nat.cast : ℕ → ℚ) hcount
  field_simp
  linarith

/-- Witness for `c9_threshold_partition` at gaze values `[1/2, 9/10]`. -/
theorem c9_threshold_partition_witness :
    (([1/2, 9/10] : List ℚ) ≠ []) ∧
    eyeContactPercentage [1/2, 9/10] + lookingAwayPercentage [1/2, 9/10] = 100 := by
  exact ⟨by simp, (c9_threshold_partition [1/2, 9/10] (by simp)).2⟩

/-- The attention-score formula as the amended claim states it: 0.4 times
100 times the mean per-frame eye-contact score `1 - 2*|g - 0.5|`, plus 0.3
times the (unrounded) spread-based stability, plus 0.3 times 100 minus the
(unrounded) looking-away percentage, rounded to two decimals. -/
def specAttentionScore (gaze : List ℚ) (std : ℚ) : ℚ :=
  round2 ((100 * listMean (gaze.map (fun g => 1 - |g - 1/2| * 2))) * (4/10)
    + (max 0 (1 - std * 2) * 100) * (3/10)
    + (100 - ((lookingAwayFrames gaze : ℚ) / (gaze.length : ℚ)) * 100) * (3/10))

/-- C2 amended: for every non-empty sequence of per-frame gaze values, the
`attention_score` field produced by `analyze_video` equals 0.4 times 100
times the mean per-frame eye-contact score (`avg_eye_contact`), plus 0.3
times the gaze stability, plus 0.3 times (100 minus the looking-away
percentage) — not 0.4 times the summary's threshold-based eye-contact
percentage field, which is a different quantity. -/
theorem c2_attention_score (gaze : List ℚ) (std : ℚ) (hne : gaze ≠ [])
    (hstd0 : 0 ≤ std) (hstd : std ^ 2 = popVariance gaze) :
    (analyzeVideoSummary gaze std).attention_score = specAttentionScore gaze std := by
  unfold analyzeVideoSummary specAttentionScore attentionScoreRaw avgEyeContact
    gazeStability lookingAwayPercentage
  rw [show (fun g : ℚ => 1 - |g - 1/2| * 2) = eyeContactScore from rfl]
  congr 1
  ring

/-- C2 counterexample: for gaze values `[1/2, 3/10]` (whose population
standard deviation is exactly `1/10`), the computed attention score is 86,
while the claimed convex combination of the summary fields (eye-contact
percentage 100, stability 80, looking-away 0) is 94. -/
theorem c2_attention_score_counterexample :
    (0 ≤ (1/10 : ℚ) ∧ (1/10 : ℚ) ^ 2 = popVariance [1/2, 3/10]) ∧
    (analyzeVideoSummary [1/2, 3/10] (1/10)).attention_score ≠
      (analyzeVideoSummary [1/2, 3/10] (1/10)).eye_contact_percentage * (4/10)
        + (analyzeVideoSummary [1/2, 3/10] (1/10)).gaze_stability * (3/10)
        + (100 - (analyzeVideoSummary [1/2, 3/10] (1/10)).looking_away_percentage) * (3/10) := by
  have h1 : (analyzeVideoSummary [1/2, 3/10] (1/10)).attention_score = 86 := by
    norm_num [analyzeVideoSummary, round2, pyRound, attentionScoreRaw, avgEyeContact,
      listMean, eyeContactScore, gazeStability, lookingAwayPercentage, lookingAwayFrames,
      List.filter, abs]
  have h2 : (analyzeVideoSummary [1/2, 3/10] (1/10)).eye_contact_percentage = 100 := by
    norm_num [analyzeVideoSummary, round2, pyRound, eyeContactPercentage, eyeContactFrames,
      List.filter, abs]
  have h3 : (analyzeVideoSummary [1/2, 3/10] (1/10)).gaze_stability = 80 := by
    norm_num [analyzeVideoSummary, round2, pyRound, gazeStability]
  have h4 : (analyzeVideoSummary [1/2, 3/10] (1/10)).looking_away_percentage = 0 := by
    norm_num [analyzeVideoSummary, round2, pyRound, lookingAwayPercentage, lookingAwayFrames,
      List.filter, abs]
  refine ⟨⟨by norm_num, by norm_num [popVariance, listMean]⟩, ?_⟩
  rw [h1, h2, h3, h4]
  norm_num

/-- Witness for `c2_attention_score` at gaze values `[1/2, 3/10]` with
standard deviation `1/10`. -/
theorem c2_attention_score_witness :
    (([1/2, 3/10] : List ℚ) ≠ [] ∧ 0 ≤ (1/10 : ℚ) ∧
      (1/10 : ℚ) ^ 2 = popVariance [1/2, 3/10]) ∧
    (analyzeVideoSummary [1/2, 3/10] (1/10)).attention_score
      = specAttentionScore [1/2, 3/10] (1/10) := by
  refine ⟨⟨by simp, by norm_num, by norm_num [popVariance, listMean]⟩, ?_⟩
  exact c2_attention_score [1/2, 3/10] (1/10) (by simp) (by norm_num)
    (by norm_num [popVariance, listMean])

/-- A JSON-decoder oracle that fails on every input. -/
def noParse : String → Option Assessment := fun _ => none

/-- A Gemini oracle whose client setup raises (the `GEMINI_API_KEY` check
of `get_gemini_client`, `gemini_scorer.py` lines 23–25). -/
def clientFailOracle : GeminiOracle :=
  { clientSetup := .error "GEMINI_API_KEY environment variable not set", generate := .ok "" }

/-- C6 counterexample: when client setup raises, `assess_interview`
propagates the exception instead of returning the neutral default —
`get_gemini_client()` is called at line 273, before the `try` block. -/
theorem c6_client_setup_counterexample :
    assess_interview clientFailOracle noParse
      = .error "GEMINI_API_KEY environment variable not set" := rfl

/-- C6 amended: exceptions raised by the engine call inside the `try`
block are converted to the neutral default score 2 with the error text as
rationale, and with the client set up no exception escapes
`assess_interview`; an exception from client setup, however, propagates
(it is caught one level up, in `process_single_interview`). -/
theorem c6_engine_error_neutral_default (g : GeminiOracle)
    (parse : String → Option Assessment) (e : String) :
    (g.clientSetup = .error e → assess_interview g parse = .error e) ∧
    (g.clientSetup = .ok () → g.generate = .error e →
      assess_interview g parse
        = .ok (2, "Gemini API error: " ++ e, geminiErrorAssessment ("Gemini API error: " ++ e))) ∧
    (g.clientSetup = .ok () → ∃ out, assess_interview g parse = .ok out) := by
  obtain ⟨cs, gen⟩ := g
  refine ⟨fun h => ?_, fun h1 h2 => ?_, fun h1 => ?_⟩
  · simp only at h; subst h; rfl
  · simp only at h1 h2; subst h1; subst h2; rfl
  · simp only at h1; subst h1
    cases gen with
    | error e' => exact ⟨_, rfl⟩
    | ok t => exact ⟨_, rfl⟩

/-- Witness for `c6_engine_error_neutral_default`: an engine call raising
`"quota"` yields the neutral default. -/
theorem c6_engine_error_neutral_default_witness :
    ((GeminiOracle.mk (.ok ()) (.error "quota")).clientSetup = .ok () ∧
      (GeminiOracle.mk (.ok ()) (.error "quota")).generate = .error "quota") ∧
    assess_interview (GeminiOracle.mk (.ok ()) (.error "quota")) noParse
      = .ok (2, "Gemini API error: quota", geminiErrorAssessment "Gemini API error: quota") := by
  refine ⟨⟨rfl, rfl⟩, ?_⟩
  exact (c6_engine_error_neutral_default (GeminiOracle.mk (.ok ()) (.error "quota"))
    noParse "quota").2.1 rfl rfl

/-- C7: for every decoder behavior and every input string,
`parse_gemini_response` returns without raising, trying the strategies in
order — direct parse, ```json fenced block, plain fenced block,
brace-delimited substring — and when all fail it returns the synthesized
default judgment with score 2, confidence `LOW`, and an error rationale. -/
theorem c7_parse_fallback (jl : String → Option Assessment) (text : String) (d : Assessment) :
    (jl text = some d → parse_gemini_response jl text = d) ∧
    (jl text = none → (extractJsonFence text).bind jl = some d →
      parse_gemini_response jl text = d) ∧
    (jl text = none → (extractJsonFence text).bind jl = none →
      (extractFence text).bind jl = some d → parse_gemini_response jl text = d) ∧
    (jl text = none → (extractJsonFence text).bind jl = none →
      (extractFence text).bind jl = none → (extractBrace text).bind jl = some d →
      parse_gemini_response jl text = d) ∧
    (jl text = none → (extractJsonFence text).bind jl = none →
      (extractFence text).bind jl = none → (extractBrace text).bind jl = none →
      parse_gemini_response jl text = defaultAssessment text ∧
      (parse_gemini_response jl text).score = some 2 ∧
      (parse_gemini_response jl text).confidence_level = some "LOW" ∧
      (parse_gemini_response jl text).reasoning
        = some ("Could not parse response: " ++ text.take 200 ++ "...") ∧
      (parse_gemini_response jl text).errorText = some "Response parsing failed") := by
  unfold parse_gemini_response
  refine ⟨fun h => by rw [h], fun h1 h2 => by rw [h1, h2],
    fun h1 h2 h3 => by rw [h1, h2, h3],
    fun h1 h2 h3 h4 => by rw [h1, h2, h3, h4],
    fun h1 h2 h3 h4 => ?_⟩
  rw [h1, h2, h3, h4]
  exact ⟨rfl, rfl, rfl, rfl, rfl⟩

/-- Witness for `c7_parse_fallback`: on `"hello"` with a decoder that
always fails, all strategies fail and the default judgment is returned. -/
theorem c7_parse_fallback_witness :
    (noParse "hello" = none ∧ (extractJsonFence "hello").bind noParse = none ∧
      (extractFence "hello").bind noParse = none ∧
      (extractBrace "hello").bind noParse = none) ∧
    parse_gemini_response noParse "hello" = defaultAssessment "hello" := by
  refine ⟨⟨rfl, by decide, by decide, by decide⟩, ?_⟩
  exact ((c7_parse_fallback noParse "hello" (defaultAssessment "hello")).2.2.2.2
    rfl (by decide) (by decide) (by decide)).1

/-- C5 amended: the cleanup of the retrieved media runs exactly once on
every exit path on which retrieval assigned a non-empty local path —
success, a transcription / gaze / judgment failure, a raising progress
callback — and zero times when the first progress call raises before
retrieval or when retrieval itself fails or raises without yielding a
path (the `finally` guard `if video_path:` skips falsy paths). -/
theorem c5_cleanup_guard (pid : ℤ) (c : PipelineCollab) :
    (process_single_interview pid c).2 =
      if progressCall c 0 = none ∧ downloadedPath c ≠ "" then 1 else 0 := by
  unfold process_single_interview downloadedPath
  cases h0 : progressCall c 0 with
  | some e => simp
  | none =>
    cases hd : c.download with
    | error e => simp
    | ok p =>
      obtain ⟨path, success⟩ := p
      by_cases hp : path = ""
      · subst hp
        simp only [ne_eq, not_true_eq_false, and_false, if_false, if_pos rfl]
        cases success
        · simp
        · cases h1 : progressCall c 1 with
          | some e => simp
          | none =>
            cases h2 : progressCall c 2 with
            | some e => simp
            | none =>
              cases h3 : progressCall c 3 with
              | some e => simp
              | none =>
                cases ha : assess_interview c.gemini c.jsonLoads <;> simp
      · simp only [ne_eq, hp, not_false_eq_true, and_true, if_neg hp, if_true]
        cases success
        · simp
        · cases h1 : progressCall c 1 with
          | some e => simp
          | none =>
            cases h2 : progressCall c 2 with
            | some e => simp
            | none =>
              cases h3 : progressCall c 3 with
              | some e => simp
              | none =>
                cases ha : assess_interview c.gemini c.jsonLoads <;> simp

/-- A Gemini oracle whose calls all succeed. -/
def okGemini : GeminiOracle := { clientSetup := .ok (), generate := .ok "resp" }

/-- A collaborator assignment where retrieval fails: `download_video`
returns `("", False)` and everything else succeeds. -/
def retrievalFailCollab : PipelineCollab :=
  { progress := none, download := .ok ("", false), transcribe := .ok "", eyeTrack := .ok "",
    gemini := okGemini, jsonLoads := noParse }

/-- C5 counterexample: on a retrieval-stage failure the cleanup is invoked
zero times, not once — the question exits with the zero-score retrieval
error and no media was retrieved to clean up. -/
theorem c5_cleanup_counterexample :
    (process_single_interview 1 retrievalFailCollab).2 = 0 ∧
    (process_single_interview 1 retrievalFailCollab).1.score = 0 := ⟨rfl, rfl⟩

/-- The base fused score is clamped into `[0, 4]`. -/
theorem fusedBase_bounds (s : ℤ) (a b c : ℚ) :
    0 ≤ fusedBase s a b c ∧ fusedBase s a b c ≤ 4 := by
  unfold fusedBase clampScore
  exact ⟨le_max_left 0 _, max_le (by norm_num) (min_le_left 4 _)⟩

/-- The integrity penalty keeps a score in `[0, 4]` inside `[0, 4]`. -/
theorem applyIntegrity_bounds (x : ℤ) (f n : String) (h0 : 0 ≤ x) (h4 : x ≤ 4) :
    0 ≤ (applyIntegrity x f n).1 ∧ (applyIntegrity x f n).1 ≤ 4 := by
  unfold applyIntegrity
  split_ifs
  · exact ⟨le_max_left 0 _, max_le (by norm_num) (by omega)⟩
  · exact ⟨h0, h4⟩

/-- Whenever `assess_interview` returns normally, its score lies in `[0, 4]`. -/
theorem assess_interview_ok_bounds (g : GeminiOracle) (parse : String → Option Assessment)
    (s : ℤ) (r : String) (a : Assessment)
    (h : assess_interview g parse = .ok (s, r, a)) : 0 ≤ s ∧ s ≤ 4 := by
  obtain ⟨cs, gen⟩ := g
  cases cs with
  | error e => exact absurd h (by simp [assess_interview])
  | ok u =>
    cases gen with
    | error e =>
      simp only [assess_interview, Except.ok.injEq, Prod.mk.injEq] at h
      obtain ⟨hs, -⟩ := h
      omega
    | ok txt =>
      simp only [assess_interview, Except.ok.injEq, Prod.mk.injEq] at h
      obtain ⟨hs, -⟩ := h
      rw [← hs]
      exact applyIntegrity_bounds _ _ _ (fusedBase_bounds _ _ _ _).1 (fusedBase_bounds _ _ _ _).2

/-- C10: for every position id and every behavior of the retrieval,
transcription, gaze-analysis and judgment collaborators (including
raising), `process_single_interview` returns normally with a record whose
id is the given position id and whose score is an integer in `[0, 4]`. -/
theorem c10_pipeline_invariant (pid : ℤ) (c : PipelineCollab) :
    ((process_single_interview pid c).1).id = pid ∧
    0 ≤ ((process_single_interview pid c).1).score ∧
    ((process_single_interview pid c).1).score ≤ 4 := by
  unfold process_single_interview
  cases h0 : progressCall c 0 with
  | some e => exact ⟨rfl, by norm_num [errorResult], by norm_num [errorResult]⟩
  | none =>
    cases hd : c.download with
    | error e => exact ⟨rfl, by norm_num [errorResult], by norm_num [errorResult]⟩
    | ok p =>
      obtain ⟨path, success⟩ := p
      cases success
      · exact ⟨rfl, by norm_num [errorResult], by norm_num [errorResult]⟩
      · cases h1 : progressCall c 1 with
        | some e => exact ⟨rfl, by norm_num [errorResult], by norm_num [errorResult]⟩
        | none =>
          cases h2 : progressCall c 2 with
          | some e => exact ⟨rfl, by norm_num [errorResult], by norm_num [errorResult]⟩
          | none =>
            cases h3 : progressCall c 3 with
            | some e => exact ⟨rfl, by norm_num [errorResult], by norm_num [errorResult]⟩
            | none =>
              cases ha : assess_interview c.gemini c.jsonLoads with
              | error e => exact ⟨rfl, by norm_num, by norm_num⟩
              | ok out =>
                obtain ⟨sc, rs, aa⟩ := out
                have hb := assess_interview_ok_bounds c.gemini c.jsonLoads sc rs aa ha
                exact ⟨rfl, by simpa using hb.1, by simpa using hb.2⟩
